import Mathlib

/-!
Verification development for the llm_caller_mcp orchestrator / provider-adapter
slice.  Every definition below is a shallow embedding of the corresponding
TypeScript source:

* `src/providerErrors.ts` — error taxonomy (`ProviderErrorClassification`,
  `ProviderError`, `isRetryable`).
* `src/adapters/helpers.ts` — `mapStatusToClassification`.
* `src/orchestrator.ts` — routing selection, adapter selection, retry loop,
  `dispatchChat` / `dispatchEmbed`.
* `src/adapters/openaiAdapter.ts` — `extractDataPayload`,
  `mapChatCompletionsStream`, `normalizeChatUsage`, `clampNonNegative`,
  `toNumber`.

Modelling conventions:

* JavaScript numbers are modelled as `ℤ`.  Every numeric value this slice
  computes with (HTTP statuses, capability scores, retry budgets, token
  counts) is integer-valued in the configurations and payloads at issue, so
  `Number.isFinite` checks are identically true, and `Math.floor` /
  `Math.round` are the identity; where the source applies them this is noted
  at the definition.
* JavaScript objects coming from `JSON.parse` are modelled by the inductive
  `Jv` (ordered association lists for objects, duplicate keys resolved
  last-wins, as `JSON.parse` does).  JSON numeric literals are integers in
  this model.
* A thrown JavaScript value is either a `ProviderError` or a plain `Error`;
  the sum type `Thrown` keeps the distinction the orchestrator's
  `isProviderError` check depends on.  The diagnostic `cause` field of
  `ProviderError` is not modelled (it is never read by this slice).
* Async functions returning `T` or throwing become functions into
  `Except Thrown T`.  An adapter method is modelled as a function of the
  request and of the 1-based invocation index, so that stub adapters whose
  behaviour varies per call (as in the repository's tests) are expressible.
* The dispatch entry points additionally return the list of invocation
  indices at which the adapter's capability method was actually called, in
  order; this instrumentation only records what the control flow of the
  source does and changes no outcome.
* JavaScript string operations (`split`, `startsWith`, `slice`, `trim`,
  `trimStart`, `join`) are implemented on `List Char` below, mirroring the
  exact calls the source makes.
-/

/-- `ProviderErrorClassification` from `src/providerErrors.ts`. -/
inductive Classification where
  | TEMPORARY
  | PERMANENT
  | AUTH
  | CONFIG
  | RATE_LIMIT
deriving DecidableEq, Repr

/-- `ProviderError` from `src/providerErrors.ts` (the diagnostic `cause`
option is not modelled). -/
structure ProviderError where
  message : String
  classification : Classification
  retryAfterMs : Option Int := none
deriving DecidableEq, Repr

/-- A thrown JavaScript value as seen by the orchestrator: either a
`ProviderError` (detected by `isProviderError`) or any other error, carrying
its message. -/
inductive Thrown where
  | providerErr (e : ProviderError)
  | plainError (msg : String)
deriving DecidableEq, Repr

/-- `isRetryable` from `src/providerErrors.ts`. -/
def isRetryable (c : Classification) : Bool :=
  c = Classification.TEMPORARY || c = Classification.RATE_LIMIT

/-- `mapStatusToClassification` from `src/adapters/helpers.ts`; HTTP status
codes are JavaScript numbers, modelled as integers. -/
def mapStatusToClassification (status : ℤ) : Classification :=
  if status = 401 ∨ status = 403 then Classification.AUTH
  else if status = 429 then Classification.RATE_LIMIT
  else if 500 ≤ status then Classification.TEMPORARY
  else if 400 ≤ status then Classification.PERMANENT
  else Classification.TEMPORARY

/-! ## JavaScript values (`JSON.parse` results and payloads) -/

/-- A JSON/JavaScript value.  Objects are ordered association lists;
`JSON.parse` resolves duplicate keys last-wins, which `jGet` reproduces.
Numeric literals are integers in this model. -/
inductive Jv where
  | null
  | bool (b : Bool)
  | num (n : Int)
  | str (s : String)
  | arr (elems : List Jv)
  | obj (fields : List (String × Jv))
deriving Repr

/-- JavaScript truthiness of a value. -/
def jsTruthy : Jv → Bool
  | Jv.null => false
  | Jv.bool b => b
  | Jv.num n => !(n == 0)
  | Jv.str s => !(s == "")
  | Jv.arr _ => true
  | Jv.obj _ => true

/-- Fields of an object value (`[]` for any non-object, matching how the
source reads properties off arbitrary `unknown` values). -/
def objFieldsOf : Jv → List (String × Jv)
  | Jv.obj fields => fields
  | _ => []

/-- Property read `v[k]` (last-wins over duplicate keys). -/
def jGet (v : Jv) (k : String) : Option Jv :=
  ((objFieldsOf v).reverse.find? (fun p => p.1 == k)).map (·.2)

/-- `undefined`/`null`-coalescing view of a property, used for `??` chains. -/
def jGetNN (v : Jv) (k : String) : Option Jv :=
  match jGet v k with
  | some Jv.null => none
  | r => r

/-- Object spread update: assign key `k` to `w`, keeping the key's first
position if already present (JavaScript object-literal semantics). -/
def objSet (fields : List (String × Jv)) (k : String) (w : Jv) : List (String × Jv) :=
  if fields.any (fun p => p.1 == k) then
    fields.map (fun p => if p.1 == k then (k, w) else p)
  else fields ++ [(k, w)]

/-! ## Canonical requests, responses, configuration (`src/orchestrator.ts`,
`src/loadConfig.ts`) -/

/-- One role/content message pair. -/
structure ChatMessage where
  role : String
  content : String
deriving DecidableEq, Repr

/-- `NormalizedChatRequest` from `src/orchestrator.ts`. -/
structure NormalizedChatRequest where
  requestId : String
  callerTool : String
  messages : List ChatMessage
  provider : Option String := none
  model : Option String := none
  temperature : Option Int := none
  maxTokens : Option Int := none
deriving DecidableEq, Repr

/-- `NormalizedEmbedRequest` from `src/orchestrator.ts`; each input is raw
text or a numeric vector. -/
structure NormalizedEmbedRequest where
  requestId : String
  callerTool : String
  inputs : List (String ⊕ List Int)
  provider : Option String := none
  model : Option String := none
deriving DecidableEq, Repr

/-- `ProviderResponse<T>` from `src/orchestrator.ts`. -/
structure ProviderResponse (α : Type) where
  payload : α
  traceId : String
  retryAfterMs : Option Int := none
  attempts : Option Nat := none
deriving Repr

/-- `ProviderConfig` from `src/loadConfig.ts`: `defaults` maps capability →
model, `scores` maps capability → number; both optional maps are modelled as
(possibly empty) association lists with unique keys. -/
structure ProviderConfig where
  baseUrl : String
  defaultModel : String
  capabilities : List String
  defaults : List (String × String) := []
  scores : List (String × Int) := []
deriving Repr

/-- The slice of `CallerConfig` the orchestrator reads: the ordered provider
record (JavaScript object insertion order, provider names assumed
non-numeric strings) and `retry.maxAttempts`. -/
structure CallerConfig where
  providers : List (String × ProviderConfig)
  retryMaxAttempts : Option Int := none
deriving Repr

/-- Record lookup (unique keys) for `defaults`. -/
def recGetS (m : List (String × String)) (k : String) : Option String :=
  (m.find? (fun p => p.1 == k)).map (·.2)

/-- Record lookup (unique keys) for `scores`. -/
def recGetI (m : List (String × Int)) (k : String) : Option Int :=
  (m.find? (fun p => p.1 == k)).map (·.2)

/-- Provider lookup `config.providers[key]`. -/
def lookupProvider (providers : List (String × ProviderConfig)) (k : String) :
    Option ProviderConfig :=
  (providers.find? (fun p => p.1 == k)).map (·.2)

/-- `Boolean(x)` for an optional string (`undefined` and `""` are falsy). -/
def jsTruthyStrOpt : Option String → Bool
  | some s => !(s == "")
  | none => false

/-- Routing strategy tags. -/
inductive RoutingStrategy where
  | capabilityDefault
  | callerOverride
  | fallback
deriving DecidableEq, Repr

/-- The wire string of each strategy tag. -/
def strategyTag : RoutingStrategy → String
  | RoutingStrategy.capabilityDefault => "capability-default"
  | RoutingStrategy.callerOverride => "caller-override"
  | RoutingStrategy.fallback => "fallback"

/-- `RoutingSelection` from `src/orchestrator.ts`. -/
structure RoutingSelection where
  providerKey : String
  model : String
  strategy : RoutingStrategy
deriving DecidableEq, Repr

/-- An adapter as the orchestrator sees it (`ProviderAdapter` in
`src/orchestrator.ts`).  `chat`/`embed` take the 1-based invocation index so
stateful stub behaviour is expressible; `hasEmbed` models presence of the
optional `embed` method. -/
structure ProviderAdapter where
  name : String
  supports : String → Bool
  chat : NormalizedChatRequest → Nat → Except Thrown (ProviderResponse Jv)
  hasChatStream : Bool := false
  hasEmbed : Bool := false
  embed : NormalizedEmbedRequest → Nat → Except Thrown (ProviderResponse Jv) :=
    fun _ _ => Except.error (Thrown.plainError "embed not implemented")

/-! ## Orchestrator (`src/orchestrator.ts`) -/

/-- `resolveMaxAttempts`: the configured `retry.maxAttempts` when it is a
finite number ≥ 1 (`Math.floor`ed — the identity here, numbers being
integers), else 2. -/
def resolveMaxAttempts (config : CallerConfig) : Nat :=
  match config.retryMaxAttempts with
  | some q => if 1 ≤ q then q.toNat else 2
  | none => 2

/-- Best candidate tracked by the scoring loop of `resolveRoutingSelection`. -/
structure BestEntry where
  key : String
  index : Nat
  score : Int
  model : String
  strategy : RoutingStrategy
deriving Repr

/-- The `entries.forEach` scoring loop of `resolveRoutingSelection`:
providers declaring the capability are scored
`(scores[capability] ?? 0) + (50 if Boolean(defaults[capability]) else 0)`;
a strictly greater score (or equal score at a smaller index, which cannot
occur scanning left to right) replaces the best. -/
def scanProviders (capability : String) :
    List (String × ProviderConfig) → Nat → Option BestEntry → Option BestEntry
  | [], _, best => best
  | (key, pc) :: rest, index, best =>
    if pc.capabilities.contains capability then
      let mOpt := recGetS pc.defaults capability
      let hasDefault := jsTruthyStrOpt mOpt
      let baseScore := (recGetI pc.scores capability).getD 0
      let score := baseScore + (if hasDefault then 50 else 0)
      let model := mOpt.getD pc.defaultModel
      let strategy :=
        if hasDefault then RoutingStrategy.capabilityDefault else RoutingStrategy.fallback
      let best' :=
        match best with
        | none => some { key := key, index := index, score := score, model := model, strategy := strategy }
        | some b =>
          if score > b.score ∨ (score = b.score ∧ index < b.index) then
            some { key := key, index := index, score := score, model := model, strategy := strategy }
          else some b
      scanProviders capability rest (index + 1) best'
    else
      scanProviders capability rest (index + 1) best

/-- `resolveRoutingSelection` from `src/orchestrator.ts`. -/
def resolveRoutingSelection (capability : String) (reqProvider reqModel : Option String)
    (providers : List (String × ProviderConfig)) : Except Thrown RoutingSelection :=
  match reqProvider with
  | some p =>
    match lookupProvider providers p with
    | none => Except.error (Thrown.plainError ("Unknown provider: " ++ p))
    | some pc =>
      let model := reqModel.getD ((recGetS pc.defaults capability).getD pc.defaultModel)
      Except.ok { providerKey := p, model := model, strategy := RoutingStrategy.callerOverride }
  | none =>
    match providers with
    | [] => Except.error (Thrown.plainError "No providers configured")
    | (k0, pc0) :: _ =>
      match scanProviders capability providers 0 none with
      | some b => Except.ok { providerKey := b.key, model := b.model, strategy := b.strategy }
      | none =>
        Except.ok { providerKey := k0, model := pc0.defaultModel, strategy := RoutingStrategy.fallback }

/-- `getRegisteredAdapter` from `src/orchestrator.ts`. -/
def getRegisteredAdapter (providerKey : String) (adapters : List ProviderAdapter) :
    Except Thrown ProviderAdapter :=
  match adapters.find? (fun a => a.name == providerKey) with
  | some a => Except.ok a
  | none => Except.error (Thrown.plainError ("Adapter not registered for provider: " ++ providerKey))

/-- `validateCapability` from `src/orchestrator.ts`. -/
def validateCapability (pc : ProviderConfig) (capability providerKey : String) :
    Except Thrown Unit :=
  if pc.capabilities.contains capability then Except.ok ()
  else Except.error (Thrown.plainError
    ("Provider " ++ providerKey ++ " does not declare capability: " ++ capability))

/-- `selectAdapter` from `src/orchestrator.ts`. -/
def selectAdapter (providerKey : String) (pc : ProviderConfig)
    (adapters : List ProviderAdapter) (capability : String) :
    Except Thrown ProviderAdapter := do
  let a ← getRegisteredAdapter providerKey adapters
  if !(a.supports capability) then
    Except.error (Thrown.plainError
      ("Adapter " ++ providerKey ++ " does not support " ++ capability ++ " capability"))
  else do
    let _ ← validateCapability pc capability providerKey
    Except.ok a

/-- `normalizeChatRequest` from `src/orchestrator.ts`. -/
def normalizeChatRequest (request : NormalizedChatRequest) (providerKey : String)
    (pc : ProviderConfig) (modelOverride : Option String) : NormalizedChatRequest :=
  { request with
    provider := some providerKey
    model := some ((modelOverride.orElse (fun _ => request.model)).getD pc.defaultModel) }

/-- `normalizeEmbedRequest` from `src/orchestrator.ts`. -/
def normalizeEmbedRequest (request : NormalizedEmbedRequest) (providerKey : String)
    (pc : ProviderConfig) (modelOverride : Option String) : NormalizedEmbedRequest :=
  { request with
    provider := some providerKey
    model := some ((modelOverride.orElse (fun _ => request.model)).getD pc.defaultModel) }

/-- Routing context handed to `attachRoutingMetadata`. -/
structure RoutingContext where
  provider : String
  model : String
  capability : String
  strategy : RoutingStrategy
deriving Repr

/-- `attachRoutingMetadata` from `src/orchestrator.ts`: non-objects pass
through; on objects, `providerInfo` becomes
`\x7b name: existing.name ?? provider, model: existing.model ?? model,
...existing, routing: \x7b capability, strategy \x7d \x7d`. -/
def attachRoutingMetadata (payload : Jv) (ctx : RoutingContext) : Jv :=
  match payload with
  | Jv.obj fields =>
    let existing := match jGetNN (Jv.obj fields) "providerInfo" with
      | some v => objFieldsOf v
      | none => []
    let nameV := (jGetNN (Jv.obj existing) "name").getD (Jv.str ctx.provider)
    let modelV := (jGetNN (Jv.obj existing) "model").getD (Jv.str ctx.model)
    let routingV := Jv.obj
      [("capability", Jv.str ctx.capability), ("strategy", Jv.str (strategyTag ctx.strategy))]
    let spreadBase := [("name", nameV), ("model", modelV)]
    let spreadAll := existing.foldl (fun acc p => objSet acc p.1 p.2) spreadBase
    let piFields := objSet spreadAll "routing" routingV
    Jv.obj (objSet fields "providerInfo" (Jv.obj piFields))
  | p => p

/-- The error raised when the retry budget is exhausted on retryable
failures. -/
def retryExhaustedError (providerKey : String) (maxAttempts : Nat)
    (lastErr : Option ProviderError) : ProviderError :=
  { message := "Provider " ++ providerKey ++ " failed after " ++ toString maxAttempts ++ " attempts"
    classification := (lastErr.map (·.classification)).getD Classification.TEMPORARY }

/-- The `while` loop of `executeWithRetry` (`src/orchestrator.ts`),
structurally recursive on `remaining = maxAttempts - attempt` (the loop
guard `attempt < maxAttempts` is `remaining > 0`, and the inner
`attempt + 1 < maxAttempts` check is `remaining - 1 > 0`).  Also returns the
list of 1-based attempt indices at which the operation was invoked. -/
def executeWithRetryGo {α : Type} (op : Nat → Except Thrown α) (providerKey : String)
    (maxAttempts : Nat) :
    (attempt remaining : Nat) → (lastErr : Option ProviderError) →
      Except Thrown (α × Nat) × List Nat
  | _, 0, lastErr =>
    (Except.error (Thrown.providerErr (retryExhaustedError providerKey maxAttempts lastErr)), [])
  | attempt, remaining + 1, _ =>
    match op (attempt + 1) with
    | Except.ok r => (Except.ok (r, attempt + 1), [attempt + 1])
    | Except.error (Thrown.plainError m) => (Except.error (Thrown.plainError m), [attempt + 1])
    | Except.error (Thrown.providerErr e) =>
      if isRetryable e.classification then
        if remaining = 0 then
          (Except.error
            (Thrown.providerErr (retryExhaustedError providerKey maxAttempts (some e))),
            [attempt + 1])
        else
          let next := executeWithRetryGo op providerKey maxAttempts (attempt + 1) remaining (some e)
          (next.1, (attempt + 1) :: next.2)
      else (Except.error (Thrown.providerErr e), [attempt + 1])

/-- `executeWithRetry` from `src/orchestrator.ts`. -/
def executeWithRetry {α : Type} (op : Nat → Except Thrown α) (providerKey : String)
    (maxAttempts : Nat) : Except Thrown (α × Nat) × List Nat :=
  executeWithRetryGo op providerKey maxAttempts 0 maxAttempts none

/-- `dispatchChat` from `createOrchestrator` (`src/orchestrator.ts`).  The
second component lists the invocation indices of `adapter.chat`. -/
def dispatchChat (config : CallerConfig) (adapters : List ProviderAdapter)
    (request : NormalizedChatRequest) :
    Except Thrown (ProviderResponse Jv) × List Nat :=
  match resolveRoutingSelection "chat" request.provider request.model config.providers with
  | Except.error t => (Except.error t, [])
  | Except.ok routing =>
    match lookupProvider config.providers routing.providerKey with
    | none => (Except.error (Thrown.plainError "internal: provider config missing"), [])
    | some pc =>
      match selectAdapter routing.providerKey pc adapters "chat" with
      | Except.error t => (Except.error t, [])
      | Except.ok adapter =>
        let normalized := normalizeChatRequest request routing.providerKey pc (some routing.model)
        let run := executeWithRetry (fun k => adapter.chat normalized k)
          routing.providerKey (resolveMaxAttempts config)
        match run.1 with
        | Except.error t => (Except.error t, run.2)
        | Except.ok (result, attempts) =>
          let resolvedModel := normalized.model.getD routing.model
          let payload := attachRoutingMetadata result.payload
            { provider := routing.providerKey, model := resolvedModel
              capability := "chat", strategy := routing.strategy }
          (Except.ok { result with payload := payload, attempts := some attempts }, run.2)

/-- `dispatchEmbed` from `createOrchestrator` (`src/orchestrator.ts`): note
the adapter's `embed` is awaited directly — there is no retry loop — and
`attempts` is the literal 1.  The second component lists the invocation
indices of `adapter.embed`. -/
def dispatchEmbed (config : CallerConfig) (adapters : List ProviderAdapter)
    (request : NormalizedEmbedRequest) :
    Except Thrown (ProviderResponse Jv) × List Nat :=
  match resolveRoutingSelection "embed" request.provider request.model config.providers with
  | Except.error t => (Except.error t, [])
  | Except.ok routing =>
    match lookupProvider config.providers routing.providerKey with
    | none => (Except.error (Thrown.plainError "internal: provider config missing"), [])
    | some pc =>
      match selectAdapter routing.providerKey pc adapters "embed" with
      | Except.error t => (Except.error t, [])
      | Except.ok adapter =>
        if !adapter.hasEmbed then
          (Except.error (Thrown.plainError
            ("Adapter " ++ routing.providerKey ++ " does not support embed capability")), [])
        else
          let normalized := normalizeEmbedRequest request routing.providerKey pc (some routing.model)
          match adapter.embed normalized 1 with
          | Except.error t => (Except.error t, [1])
          | Except.ok response =>
            let resolvedModel := normalized.model.getD routing.model
            let payload := attachRoutingMetadata response.payload
              { provider := routing.providerKey, model := resolvedModel
                capability := "embed", strategy := routing.strategy }
            (Except.ok { response with payload := payload, attempts := some 1 }, [1])

deriving instance DecidableEq for Except

/-! ## C2: capability-default scenario -/

/-- Provider A of the C2 scenario: declares `chat`, no `defaults.chat`,
declared chat score 95. -/
def pcA : ProviderConfig :=
  { baseUrl := "http://a", defaultModel := "a-default", capabilities := ["chat"]
    scores := [("chat", 95)] }

/-- Provider B of the C2 scenario: declares `chat`, `defaults.chat = "x"`,
declared chat score 10. -/
def pcB : ProviderConfig :=
  { baseUrl := "http://b", defaultModel := "b-default", capabilities := ["chat"]
    defaults := [("chat", "x")], scores := [("chat", 10)] }

/-- The C2 provider record: A declared first, then B. -/
def providersAB : List (String × ProviderConfig) := [("A", pcA), ("B", pcB)]

/-! ## Retry and dispatch scenarios (C1, C3, C4, C9) -/

/-- A provider declaring only `chat`, with bare default model "m". -/
def pcChatOnly : ProviderConfig :=
  { baseUrl := "http://local", defaultModel := "m", capabilities := ["chat"] }

/-- A provider declaring only `embed`, with bare default model "em". -/
def pcEmbedOnly : ProviderConfig :=
  { baseUrl := "http://local", defaultModel := "em", capabilities := ["embed"] }

/-- Single-chat-provider configuration with the given `retry.maxAttempts`. -/
def cfgRetryOpt (r : Option Int) : CallerConfig :=
  { providers := [("prov", pcChatOnly)], retryMaxAttempts := r }

/-- Single-chat-provider configuration with `retry.maxAttempts = N`. -/
def cfgRetryN (N : Nat) : CallerConfig := cfgRetryOpt (some (N : Int))

/-- Single-embed-provider configuration with the given `retry.maxAttempts`. -/
def cfgEmbed (r : Option Int) : CallerConfig :=
  { providers := [("prov", pcEmbedOnly)], retryMaxAttempts := r }

/-- A plain chat request with no overrides. -/
def reqChatStd : NormalizedChatRequest :=
  { requestId := "req", callerTool := "tool", messages := [{ role := "user", content := "hi" }] }

/-- A plain embed request with no overrides. -/
def reqEmbedStd : NormalizedEmbedRequest :=
  { requestId := "req", callerTool := "tool", inputs := [Sum.inl "hello"] }

/-- A chat adapter whose k-th chat invocation throws `errFam k`. -/
def adapterChatFail (errFam : Nat → ProviderError) : ProviderAdapter :=
  { name := "prov", supports := fun c => c == "chat"
    chat := fun _ k => Except.error (Thrown.providerErr (errFam k)) }

/-- A chat adapter every invocation of which throws the fixed value `t`. -/
def adapterChatThrow (t : Thrown) : ProviderAdapter :=
  { name := "prov", supports := fun c => c == "chat", chat := fun _ _ => Except.error t }

/-- An embed adapter whose k-th embed invocation behaves as `f k`. -/
def adapterEmbedSeq (f : Nat → Except Thrown (ProviderResponse Jv)) : ProviderAdapter :=
  { name := "prov", supports := fun c => c == "embed"
    chat := fun _ _ => Except.error (Thrown.plainError "no chat")
    hasEmbed := true, embed := fun _ k => f k }

/-- Embed behaviour failing with a retryable TEMPORARY error on the first
invocation and succeeding on every later one. -/
def embedFlaky : Nat → Except Thrown (ProviderResponse Jv) := fun k =>
  if k = 1 then
    Except.error (Thrown.providerErr
      { message := "temporary blip", classification := Classification.TEMPORARY })
  else Except.ok { payload := Jv.obj [], traceId := "t" }

/-- An adapter registered under "prov" that advertises no capability at all. -/
def adapterNoChat : ProviderAdapter :=
  { name := "prov", supports := fun _ => false
    chat := fun _ _ => Except.error (Thrown.plainError "unreachable") }

/-- An adapter registered under "prov" that advertises every capability. -/
def adapterAllCaps : ProviderAdapter :=
  { name := "prov", supports := fun _ => true
    chat := fun _ _ => Except.error (Thrown.plainError "unreachable") }

/-- Does a thrown value carry the CONFIG classification?  (A plain `Error`
carries no classification at all.) -/
def carriesConfig : Thrown → Bool
  | Thrown.providerErr e => e.classification == Classification.CONFIG
  | Thrown.plainError _ => false

/-! ## JavaScript string operations (`List Char` level)

These mirror the exact string calls in `extractDataPayload`
(`src/adapters/openaiAdapter.ts`): `split('\n')`, `startsWith('data:')`,
`slice(5)`, `trimStart()`, `join('\n')`, `trim()`. -/

/-- `s.split('\n')` on character lists. -/
def splitOnNl : List Char → List Char → List (List Char)
  | [], acc => [acc.reverse]
  | '\n' :: rest, acc => acc.reverse :: splitOnNl rest []
  | c :: rest, acc => splitOnNl rest (c :: acc)

/-- `s.startsWith(p)`: first argument is the pattern. -/
def listStartsWith : List Char → List Char → Bool
  | [], _ => true
  | _ :: _, [] => false
  | p :: ps, c :: cs => p == c && listStartsWith ps cs

/-- `s.trimStart()` (ASCII whitespace, which is all this protocol uses). -/
def trimStartChars (cs : List Char) : List Char :=
  cs.dropWhile (fun c => c.isWhitespace)

/-- `s.trim()`. -/
def trimChars (cs : List Char) : List Char :=
  ((cs.dropWhile (fun c => c.isWhitespace)).reverse.dropWhile (fun c => c.isWhitespace)).reverse

/-- `lines.join('\n')`. -/
def joinNl : List (List Char) → List Char
  | [] => []
  | [l] => l
  | l :: ls => l ++ '\n' :: joinNl ls

/-- `extractDataPayload` from `src/adapters/openaiAdapter.ts`: split the
chunk into lines, keep the `data:`-prefixed ones, strip the prefix and
leading whitespace, join with newlines, trim; `none` when no `data:` line
exists (all chunks here are strings, so the `typeof` guard is vacuous). -/
def extractDataPayload (chunk : String) : Option String :=
  let lines := splitOnNl chunk.data []
  let dataLines := (lines.filter (fun l => listStartsWith "data:".data l)).map
    (fun l => trimStartChars (l.drop 5))
  if dataLines.isEmpty then none
  else some (String.mk (trimChars (joinNl dataLines)))

/-! ## `JSON.parse` (fuelled recursive-descent parser)

Models `JSON.parse` for the payload grammar this slice exchanges: objects,
arrays, strings (with the common escapes), `true`/`false`/`null`, and
(signed) decimal **integer** numerals — the only numbers appearing in these
payloads are integer token counts. -/

/-- JSON whitespace. -/
def jsonWs (c : Char) : Bool := c == ' ' || c == '\n' || c == '\t' || c == '\r'

/-- Body of a JSON string literal after the opening quote; returns the
decoded characters and the remainder after the closing quote. -/
def parseStrChars : List Char → Option (List Char × List Char)
  | [] => none
  | '"' :: rest => some ([], rest)
  | '\\' :: e :: rest =>
    let esc : Option Char :=
      if e == '"' then some '"'
      else if e == '\\' then some '\\'
      else if e == '/' then some '/'
      else if e == 'n' then some '\n'
      else if e == 't' then some '\t'
      else if e == 'r' then some '\r'
      else none
    match esc with
    | none => none
    | some c =>
      match parseStrChars rest with
      | some (cs, rem) => some (c :: cs, rem)
      | none => none
  | c :: rest =>
    match parseStrChars rest with
    | some (cs, rem) => some (c :: cs, rem)
    | none => none

/-- Decimal digits to a natural number. -/
def digitsToNat : List Char → Nat → Nat
  | [], acc => acc
  | c :: cs, acc => digitsToNat cs (acc * 10 + (c.toNat - '0'.toNat))

/-- A signed decimal integer numeral. -/
def parseIntLit (cs : List Char) : Option (Int × List Char) :=
  let signed := match cs with
    | '-' :: rest => (true, rest)
    | _ => (false, cs)
  let digits := signed.2.takeWhile (fun c => c.isDigit)
  let rest := signed.2.dropWhile (fun c => c.isDigit)
  if digits.isEmpty then none
  else some ((if signed.1 then -(digitsToNat digits 0 : Int) else (digitsToNat digits 0 : Int)), rest)

mutual

/-- A JSON value (fuelled). -/
def parseVal : Nat → List Char → Option (Jv × List Char)
  | 0, _ => none
  | fuel + 1, cs =>
    match cs.dropWhile jsonWs with
    | '{' :: rest =>
      (match rest.dropWhile jsonWs with
        | '}' :: rem => some (Jv.obj [], rem)
        | body => parseMembers fuel body [])
    | '[' :: rest =>
      (match rest.dropWhile jsonWs with
        | ']' :: rem => some (Jv.arr [], rem)
        | body => parseElems fuel body [])
    | '"' :: rest =>
      (match parseStrChars rest with
        | some (scs, rem) => some (Jv.str (String.mk scs), rem)
        | none => none)
    | 't' :: 'r' :: 'u' :: 'e' :: rem => some (Jv.bool true, rem)
    | 'f' :: 'a' :: 'l' :: 's' :: 'e' :: rem => some (Jv.bool false, rem)
    | 'n' :: 'u' :: 'l' :: 'l' :: rem => some (Jv.null, rem)
    | other =>
      (match parseIntLit other with
        | some (n, rem) => some (Jv.num n, rem)
        | none => none)

/-- Object members after `{` (fuelled). -/
def parseMembers : Nat → List Char → List (String × Jv) → Option (Jv × List Char)
  | 0, _, _ => none
  | fuel + 1, cs, acc =>
    match cs.dropWhile jsonWs with
    | '"' :: rest =>
      (match parseStrChars rest with
        | none => none
        | some (kcs, rem1) =>
          match rem1.dropWhile jsonWs with
          | ':' :: rem2 =>
            (match parseVal fuel rem2 with
              | none => none
              | some (v, rem3) =>
                match rem3.dropWhile jsonWs with
                | ',' :: rem4 => parseMembers fuel rem4 (acc ++ [(String.mk kcs, v)])
                | '}' :: rem4 => some (Jv.obj (acc ++ [(String.mk kcs, v)]), rem4)
                | _ => none)
          | _ => none)
    | _ => none

/-- Array elements after `[` (fuelled). -/
def parseElems : Nat → List Char → List Jv → Option (Jv × List Char)
  | 0, _, _ => none
  | fuel + 1, cs, acc =>
    match parseVal fuel cs with
    | none => none
    | some (v, rem) =>
      match rem.dropWhile jsonWs with
      | ',' :: rem2 => parseElems fuel rem2 (acc ++ [v])
      | ']' :: rem2 => some (Jv.arr (acc ++ [v]), rem2)
      | _ => none

end

/-- `JSON.parse` returning `none` on failure (any two consecutive parser
steps consume at least one character, so `2·length + 2` fuel suffices). -/
def parseJson (s : String) : Option Jv :=
  match parseVal (2 * s.length + 2) s.data with
  | some (v, rem) => if (rem.dropWhile jsonWs).isEmpty then some v else none
  | none => none

/-! ## Stream chunk projection (`mapChatCompletionsStream` field reads) -/

/-- Property read that keeps only `typeof x === 'string'` values. -/
def strFieldOf (v : Jv) (k : String) : Option String :=
  match jGet v k with
  | some (Jv.str s) => some s
  | _ => none

/-- The fields `mapChatCompletionsStream` reads from a `choice.delta`
(`typeof`-string checks on `role` and `content`). -/
structure RawDelta where
  role : Option String
  content : Option String
deriving DecidableEq, Repr

/-- The fields read from a `choice`: a truthiness-guarded `delta` and a
string-compared `finish_reason`. -/
structure RawChoice where
  delta : Option RawDelta
  finish_reason : Option String
deriving DecidableEq, Repr

/-- The fields read from a parsed chunk: `typeof`-string `id`,
truthiness-guarded `usage` (kept raw), `Array.isArray`-guarded `choices`. -/
structure RawChunk where
  id : Option String
  usage : Option Jv
  choices : List RawChoice
deriving Repr

/-- `choice.delta` projection. -/
def toRawDelta (v : Jv) : RawDelta :=
  { role := strFieldOf v "role", content := strFieldOf v "content" }

/-- `choice` projection. -/
def toRawChoice (v : Jv) : RawChoice :=
  { delta :=
      match jGet v "delta" with
      | some d => if jsTruthy d then some (toRawDelta d) else none
      | none => none
    finish_reason := strFieldOf v "finish_reason" }

/-- Parsed-chunk projection. -/
def toRawChunk (v : Jv) : RawChunk :=
  { id := strFieldOf v "id"
    usage :=
      match jGet v "usage" with
      | some u => if jsTruthy u then some u else none
      | none => none
    choices :=
      match jGet v "choices" with
      | some (Jv.arr xs) => xs.map toRawChoice
      | _ => [] }

/-! ## Usage normalization (`src/adapters/openaiAdapter.ts`) -/

/-- `toNumber`: finite numbers pass through; strings with non-empty trim are
`Number()`-coerced (decimal integer numerals in this model); everything else
is `undefined`. -/
def toNumber : Jv → Option Int
  | Jv.num n => some n
  | Jv.str s =>
    let cs := trimChars s.data
    if cs.isEmpty then none
    else
      let signed := match cs with
        | '-' :: rest => (true, rest)
        | '+' :: rest => (false, rest)
        | _ => (false, cs)
      if !signed.2.isEmpty && signed.2.all (fun c => c.isDigit) then
        some (if signed.1 then -(digitsToNat signed.2 0 : Int) else (digitsToNat signed.2 0 : Int))
      else none
  | _ => none

/-- `clampNonNegative`: non-finite → 0 (vacuous here), ≤ 0 → 0, else
`Math.round` (the identity on integers). -/
def clampNonNegative (n : Int) : Int := if n ≤ 0 then 0 else n

/-- The normalized chat usage record. -/
structure ChatUsage where
  inputTokens : Int
  outputTokens : Int
  totalTokens : Option Int
deriving DecidableEq, Repr

/-- `base[k]` coerced with `toNumber`. -/
def usageFieldNum (fields : List (String × Jv)) (k : String) : Option Int :=
  (jGet (Jv.obj fields) k).bind toNumber

/-- `normalizeChatUsage` from `src/adapters/openaiAdapter.ts`.  Note the
derived total adds the **raw** coerced values before clamping, and since the
coerced inputs/outputs default to 0 (always finite), a total is always
produced. -/
def normalizeChatUsage (raw : Option Jv) : ChatUsage :=
  let base := match raw with
    | some (Jv.obj fs) => fs
    | _ => []
  let input := ((usageFieldNum base "prompt_tokens").orElse
    (fun _ => usageFieldNum base "input_tokens")).getD 0
  let output := ((usageFieldNum base "completion_tokens").orElse
    (fun _ => usageFieldNum base "output_tokens")).getD 0
  let total := usageFieldNum base "total_tokens"
  let derivedTotal := match total with
    | some t => some t
    | none => some (input + output)
  { inputTokens := clampNonNegative input
    outputTokens := clampNonNegative output
    totalTokens := derivedTotal.map clampNonNegative }

/-! ## The streaming normalizer (`mapChatCompletionsStream`) -/

/-- A `delta` stream event's payload fragment. -/
structure StreamDelta where
  role : Option String := none
  content : Option String := none
deriving DecidableEq, Repr

/-- A `completion` stream event's payload. -/
structure CompletionPayload where
  messageRole : String
  messageContent : String
  usage : ChatUsage
  providerName : String
  providerModel : Option String
deriving DecidableEq, Repr

/-- A canonical stream event (`ProviderStreamEvent`). -/
inductive StreamEvent where
  | delta (d : StreamDelta) (traceId : Option String)
  | completion (p : CompletionPayload) (traceId : Option String)
deriving DecidableEq, Repr

/-- Is the event a `completion`? -/
def isCompletionEv : StreamEvent → Bool
  | StreamEvent.completion _ _ => true
  | _ => false

/-- The accumulation state of one stream (`accumulatedContent`, `role`,
`traceId`, `usageRaw` in the source). -/
structure StreamState where
  accumulatedContent : String := ""
  role : Option String := none
  traceId : Option String := none
  usageRaw : Option Jv := none

/-- The per-choice body of the `for (const choice of choices)` loop: a
truthy delta updates role/content and emits a `delta` event only when the
new role or content is a non-empty string; a choice with
`finish_reason === 'stop'` then emits a `completion` event from the state so
far. -/
def processChoice (pn : String) (model : Option String) (traceId : Option String)
    (usageRaw : Option Jv) (c : RawChoice) (acc : String) (role : Option String) :
    List StreamEvent × String × Option String :=
  let deltaStep :=
    match c.delta with
    | none => (([] : List StreamEvent), acc, role)
    | some d =>
      let role' := match d.role with
        | some r => some r
        | none => role
      let acc' := acc ++ (d.content.getD "")
      if jsTruthyStrOpt d.role || jsTruthyStrOpt d.content then
        ([StreamEvent.delta { role := d.role, content := d.content } traceId], acc', role')
      else ([], acc', role')
  let cEvents :=
    if c.finish_reason == some "stop" then
      [StreamEvent.completion
        { messageRole := deltaStep.2.2.getD "assistant"
          messageContent := deltaStep.2.1
          usage := normalizeChatUsage usageRaw
          providerName := pn, providerModel := model } traceId]
    else []
  (deltaStep.1 ++ cEvents, deltaStep.2.1, deltaStep.2.2)

/-- The full `choices` loop, threading accumulated content and role. -/
def processChoices (pn : String) (model : Option String) (traceId : Option String)
    (usageRaw : Option Jv) :
    List RawChoice → String → Option String → List StreamEvent × String × Option String
  | [], acc, role => ([], acc, role)
  | c :: cs, acc, role =>
    let r1 := processChoice pn model traceId usageRaw c acc role
    let rrest := processChoices pn model traceId usageRaw cs r1.2.1 r1.2.2
    (r1.1 ++ rrest.1, rrest.2)

/-- One parsed chunk: update `traceId` (string ids only) and `usageRaw`
(truthy values only), then run the choices loop. -/
def processChunk (pn : String) (model : Option String) (v : Jv) (st : StreamState) :
    List StreamEvent × StreamState :=
  let rc := toRawChunk v
  let traceId := match rc.id with
    | some i => some i
    | none => st.traceId
  let usageRaw := match rc.usage with
    | some u => some u
    | none => st.usageRaw
  let r := processChoices pn model traceId usageRaw rc.choices st.accumulatedContent st.role
  (r.1, { accumulatedContent := r.2.1, role := r.2.2, traceId := traceId, usageRaw := usageRaw })

/-- The TEMPORARY error raised on a malformed stream payload. -/
def parseFailureError : ProviderError :=
  { message := "Failed to parse OpenAI stream payload"
    classification := Classification.TEMPORARY }

/-- The chunk loop of `mapChatCompletionsStream`: skip chunks with no (or
falsy/empty) data payload, stop silently at the `[DONE]` sentinel, fail the
stream with TEMPORARY on unparseable JSON (events already emitted stand),
otherwise process the chunk and continue. -/
def streamGo (pn : String) (model : Option String) :
    List String → StreamState → List StreamEvent × Option ProviderError
  | [], _ => ([], none)
  | chunk :: rest, st =>
    match extractDataPayload chunk with
    | none => streamGo pn model rest st
    | some data =>
      if data == "" then streamGo pn model rest st
      else if data == "[DONE]" then ([], none)
      else
        match parseJson data with
        | none => ([], some parseFailureError)
        | some v =>
          let r := processChunk pn model v st
          let rrest := streamGo pn model rest r.2
          (r.1 ++ rrest.1, rrest.2)

/-- `mapChatCompletionsStream` from `src/adapters/openaiAdapter.ts`, as the
pair (events delivered, terminal error if the stream failed). -/
def mapChatCompletionsStream (source : List String) (providerName : String)
    (model : Option String) : List StreamEvent × Option ProviderError :=
  streamGo providerName model source {}

/-- The choices a chunk contributes to the loop (empty for skipped,
sentinel, or unparseable chunks). -/
def chunkChoices (s : String) : List RawChoice :=
  match extractDataPayload s with
  | none => []
  | some d =>
    if d == "" then []
    else if d == "[DONE]" then []
    else match parseJson d with
      | some v => (toRawChunk v).choices
      | none => []

/-- Does the chunk let the loop proceed (neither sentinel nor parse
failure)?  Used to state when processing runs through a whole prefix. -/
def cleanChunk (s : String) : Bool :=
  match extractDataPayload s with
  | none => true
  | some d => d == "" || (!(d == "[DONE]") && (parseJson d).isSome)

/-- The stream state after consuming a list of clean chunks. -/
def stateAfter (pn : String) (model : Option String) :
    List String → StreamState → StreamState
  | [], st => st
  | s :: ss, st =>
    match extractDataPayload s with
    | none => stateAfter pn model ss st
    | some d =>
      if d == "" then stateAfter pn model ss st
      else if d == "[DONE]" then st
      else match parseJson d with
        | some v => stateAfter pn model ss (processChunk pn model v st).2
        | none => st

/-! ## Concrete stream chunks (SSE `data:` framing, from the repository's
own adapter tests) -/

/-- Chunk carrying `delta \x7b role: "assistant", content: "Hel" \x7d`. -/
def c6a : String :=
  "data: \x7b\"choices\":[\x7b\"delta\":\x7b\"role\":\"assistant\",\"content\":\"Hel\"\x7d\x7d]\x7d\n\n"

/-- Chunk carrying `delta \x7b content: "lo" \x7d`. -/
def c6b : String :=
  "data: \x7b\"choices\":[\x7b\"delta\":\x7b\"content\":\"lo\"\x7d\x7d]\x7d\n\n"

/-- Chunk carrying `finish_reason: "stop"`. -/
def c6c : String := "data: \x7b\"choices\":[\x7b\"finish_reason\":\"stop\"\x7d]\x7d\n\n"

/-- The end-of-stream sentinel chunk. -/
def c6done : String := "data: [DONE]\n\n"

/-- A terminal-marker chunk with `finish_reason: "length"` (not "stop"). -/
def c10len : String := "data: \x7b\"choices\":[\x7b\"finish_reason\":\"length\"\x7d]\x7d\n\n"

/-- A bare stop-marker chunk. -/
def stopChunkStr : String := "data: \x7b\"choices\":[\x7b\"finish_reason\":\"stop\"\x7d]\x7d"

/-- A bare sentinel chunk. -/
def doneChunkStr : String := "data: [DONE]"

/-- A bare delta chunk carrying content "x". -/
def deltaXChunkStr : String := "data: \x7b\"choices\":[\x7b\"delta\":\x7b\"content\":\"x\"\x7d\x7d]\x7d"

/-- Raw usage object with prompt, completion and total token fields. -/
def usageObjFull (i o t : Int) : Jv :=
  Jv.obj [("prompt_tokens", Jv.num i), ("completion_tokens", Jv.num o),
    ("total_tokens", Jv.num t)]

/-- Raw usage object with prompt and completion token fields only. -/
def usageObjPartial (i o : Int) : Jv :=
  Jv.obj [("prompt_tokens", Jv.num i), ("completion_tokens", Jv.num o)]

/-- C5: the shared status→classification map returns AUTH iff the status is
401 or 403, RATE_LIMIT iff it is 429, TEMPORARY for all statuses ≥ 500,
PERMANENT for the remaining 4xx statuses, and TEMPORARY everywhere else
(statuses below 400, including non-HTTP values). -/
theorem status_classification_spec (n : ℤ) :
    (mapStatusToClassification n = Classification.AUTH ↔ (n = 401 ∨ n = 403))
    ∧ (mapStatusToClassification n = Classification.RATE_LIMIT ↔ n = 429)
    ∧ (mapStatusToClassification n = Classification.TEMPORARY ↔ (500 ≤ n ∨ n < 400))
    ∧ (mapStatusToClassification n = Classification.PERMANENT ↔
        (400 ≤ n ∧ n < 500 ∧ n ≠ 401 ∧ n ≠ 403 ∧ n ≠ 429)) := by
  unfold mapStatusToClassification
  by_cases h1 : n = 401 ∨ n = 403 <;>
    by_cases h2 : n = 429 <;>
      by_cases h3 : (500:ℤ) ≤ n <;>
        by_cases h4 : (400:ℤ) ≤ n <;>
          simp [h1, h2, h3, h4] <;> omega


/-- C2 counterexample: with A scoring 95 and B scoring 10 + 50 = 60, the
routing selection for `chat` with no caller override is **A** with A's bare
default model and strategy `fallback` — not B with model "x" and strategy
`capability-default` as the claim (and the spec's scenario) states. -/
theorem routing_scenario_selects_A :
    resolveRoutingSelection "chat" none none providersAB =
      Except.ok { providerKey := "A", model := "a-default", strategy := RoutingStrategy.fallback }
    ∧ resolveRoutingSelection "chat" none none providersAB ≠
      Except.ok { providerKey := "B", model := "x", strategy := RoutingStrategy.capabilityDefault } := by
  constructor
  · decide
  · decide

/-- C2 amended: in the scenario the claim describes, provider A (declared
first, score 95, no capability default) beats provider B (score 10 plus the
50-point default bonus = 60), so the orchestrator selects A with A's bare
default model and strategy `fallback`. -/
theorem routing_scenario_amended :
    resolveRoutingSelection "chat" none none providersAB =
      Except.ok { providerKey := "A", model := "a-default", strategy := RoutingStrategy.fallback } := by
  decide


/-! ## Helper lemmas for the retry loop -/

/-- `resolveMaxAttempts` never returns 0. -/
theorem resolveMaxAttempts_pos (config : CallerConfig) : 0 < resolveMaxAttempts config := by
  unfold resolveMaxAttempts
  split
  · split
    · omega
    · omega
  · omega

/-- When the operation throws a retryable error at every attempt, the retry
loop consumes all remaining attempts in order and raises the exhaustion
error carrying the classification of the last failure. -/
theorem retryGo_allFail {α : Type} (op : Nat → Except Thrown α) (errFam : Nat → ProviderError)
    (key : String) (N : Nat)
    (hop : ∀ k, op k = Except.error (Thrown.providerErr (errFam k)))
    (hretry : ∀ k, isRetryable (errFam k).classification = true) :
    ∀ remaining attempt lastErr, attempt + remaining = N → 0 < remaining →
      executeWithRetryGo op key N attempt remaining lastErr =
        (Except.error (Thrown.providerErr (retryExhaustedError key N (some (errFam N)))),
          List.range' (attempt + 1) remaining) := by
  intro remaining
  induction remaining with
  | zero => intro attempt lastErr _ h0; omega
  | succ r ih =>
    intro attempt lastErr hsum _
    rw [executeWithRetryGo, hop (attempt + 1)]
    simp only [hretry (attempt + 1), if_true]
    cases r with
    | zero =>
      have hN : attempt + 1 = N := by omega
      simp [hN, List.range']
    | succ r' =>
      have hne : r' + 1 ≠ 0 := by omega
      simp only [hne, if_false]
      rw [ih (attempt + 1) (some (errFam (attempt + 1))) (by omega) (by omega)]
      simp [List.range']

/-- A non-retryable `ProviderError` thrown on the first attempt of a loop
with at least one attempt available propagates unchanged after exactly one
invocation. -/
theorem retryGo_nonretryable {α : Type} (op : Nat → Except Thrown α) (key : String)
    (maxAttempts attempt r : Nat) (lastErr : Option ProviderError) (e : ProviderError)
    (hop : op (attempt + 1) = Except.error (Thrown.providerErr e))
    (hnr : isRetryable e.classification = false) :
    executeWithRetryGo op key maxAttempts attempt (r + 1) lastErr =
      (Except.error (Thrown.providerErr e), [attempt + 1]) := by
  rw [executeWithRetryGo, hop]
  simp [hnr]

/-- A thrown value that is not a `ProviderError` propagates as-is after
exactly one invocation. -/
theorem retryGo_plain {α : Type} (op : Nat → Except Thrown α) (key : String)
    (maxAttempts attempt r : Nat) (lastErr : Option ProviderError) (m : String)
    (hop : op (attempt + 1) = Except.error (Thrown.plainError m)) :
    executeWithRetryGo op key maxAttempts attempt (r + 1) lastErr =
      (Except.error (Thrown.plainError m), [attempt + 1]) := by
  rw [executeWithRetryGo, hop]

/-- Bridge: when routing, provider lookup and adapter selection succeed and
the retry loop ends in an error, `dispatchChat` returns that error and the
loop's invocation log. -/
theorem dispatchChat_error_bridge (config : CallerConfig) (adapters : List ProviderAdapter)
    (request : NormalizedChatRequest) (routing : RoutingSelection) (pc : ProviderConfig)
    (adapter : ProviderAdapter) (t : Thrown) (calls : List Nat)
    (hroute : resolveRoutingSelection "chat" request.provider request.model config.providers =
      Except.ok routing)
    (hpc : lookupProvider config.providers routing.providerKey = some pc)
    (hsel : selectAdapter routing.providerKey pc adapters "chat" = Except.ok adapter)
    (hrun : executeWithRetry
      (fun k => adapter.chat (normalizeChatRequest request routing.providerKey pc
        (some routing.model)) k)
      routing.providerKey (resolveMaxAttempts config) = (Except.error t, calls)) :
    dispatchChat config adapters request = (Except.error t, calls) := by
  unfold dispatchChat
  simp only [hroute, hpc, hsel, hrun]

/-! ## C3: retry monotonicity for chat -/

/-- C3: for every configured `retry.maxAttempts = N ≥ 1` and every adapter
whose chat call always throws a TEMPORARY `ProviderError`, `dispatchChat`
invokes the adapter exactly N times (at attempt indices 1..N) and raises a
`ProviderError` whose classification is that of the last observed failure
(attempt N) and whose message names the provider key and the attempt count. -/
theorem chat_retry_monotonicity (N : Nat) (hN : 1 ≤ N) (errFam : Nat → ProviderError)
    (hT : ∀ k, (errFam k).classification = Classification.TEMPORARY) :
    dispatchChat (cfgRetryN N) [adapterChatFail errFam] reqChatStd =
      (Except.error (Thrown.providerErr
        { message := "Provider prov failed after " ++ toString N ++ " attempts"
          classification := (errFam N).classification }),
        List.range' 1 N)
    ∧ (List.range' 1 N).length = N := by
  refine ⟨?_, by simp⟩
  have hmax : resolveMaxAttempts (cfgRetryN N) = N := by
    unfold cfgRetryN cfgRetryOpt resolveMaxAttempts
    show (if (1:Int) ≤ (N:Int) then (N:Int).toNat else 2) = N
    rw [if_pos (by exact_mod_cast hN)]
    omega
  refine dispatchChat_error_bridge _ _ _
    { providerKey := "prov", model := "m", strategy := RoutingStrategy.fallback }
    pcChatOnly (adapterChatFail errFam) _ _ rfl rfl rfl ?_
  unfold executeWithRetry
  rw [hmax]
  exact retryGo_allFail _ errFam "prov" N (fun k => rfl)
    (fun k => by rw [hT k]; rfl) N 0 none (by omega) (by omega)

/-- C3 witness: two TEMPORARY failures under the default-style budget
`maxAttempts = 2` yield exactly the attempts [1, 2] and the exhaustion
error. -/
theorem chat_retry_monotonicity_witness :
    dispatchChat (cfgRetryN 2)
      [adapterChatFail (fun _ =>
        { message := "boom", classification := Classification.TEMPORARY })] reqChatStd =
      (Except.error (Thrown.providerErr
        { message := "Provider prov failed after 2 attempts"
          classification := Classification.TEMPORARY }),
        [1, 2])
    ∧ ([1, 2] : List Nat).length = 2 :=
  chat_retry_monotonicity 2 (by omega) _ (fun _ => rfl)

/-! ## C4: no retry on non-retryable classes -/

/-- C4: a PERMANENT, AUTH or CONFIG `ProviderError` thrown on the first chat
attempt propagates unchanged after exactly one adapter invocation, for every
configured retry budget; a thrown value that is not a `ProviderError` is
likewise never retried and propagates as-is. -/
theorem chat_no_retry_nonretryable (retryCfg : Option Int) (e : ProviderError)
    (he : e.classification = Classification.PERMANENT ∨
      e.classification = Classification.AUTH ∨
      e.classification = Classification.CONFIG) (m : String) :
    dispatchChat (cfgRetryOpt retryCfg) [adapterChatThrow (Thrown.providerErr e)] reqChatStd =
      (Except.error (Thrown.providerErr e), [1])
    ∧ dispatchChat (cfgRetryOpt retryCfg) [adapterChatThrow (Thrown.plainError m)] reqChatStd =
      (Except.error (Thrown.plainError m), [1]) := by
  have hnr : isRetryable e.classification = false := by
    rcases he with h | h | h <;> rw [h] <;> rfl
  obtain ⟨r, hr⟩ : ∃ r, resolveMaxAttempts (cfgRetryOpt retryCfg) = r + 1 := by
    have := resolveMaxAttempts_pos (cfgRetryOpt retryCfg)
    exact ⟨resolveMaxAttempts (cfgRetryOpt retryCfg) - 1, by omega⟩
  constructor
  · refine dispatchChat_error_bridge _ _ _
      { providerKey := "prov", model := "m", strategy := RoutingStrategy.fallback }
      pcChatOnly (adapterChatThrow (Thrown.providerErr e)) _ _ rfl rfl rfl ?_
    unfold executeWithRetry
    rw [hr]
    exact retryGo_nonretryable _ "prov" _ 0 r none e rfl hnr
  · refine dispatchChat_error_bridge _ _ _
      { providerKey := "prov", model := "m", strategy := RoutingStrategy.fallback }
      pcChatOnly (adapterChatThrow (Thrown.plainError m)) _ _ rfl rfl rfl ?_
    unfold executeWithRetry
    rw [hr]
    exact retryGo_plain _ "prov" _ 0 r none m rfl

/-- C4 witness: an AUTH failure under budget 5 propagates after one attempt,
and so does a plain (non-`ProviderError`) throw. -/
theorem chat_no_retry_nonretryable_witness :
    dispatchChat (cfgRetryOpt (some 5))
      [adapterChatThrow (Thrown.providerErr
        { message := "denied", classification := Classification.AUTH })] reqChatStd =
      (Except.error (Thrown.providerErr
        { message := "denied", classification := Classification.AUTH }), [1])
    ∧ dispatchChat (cfgRetryOpt (some 5)) [adapterChatThrow (Thrown.plainError "bug")] reqChatStd =
      (Except.error (Thrown.plainError "bug"), [1]) :=
  chat_no_retry_nonretryable (some 5) _ (Or.inr (Or.inl rfl)) "bug"

/-! ## C1: embed dispatch and the retry loop -/

/-- C1 counterexample: with the default retry budget (2 attempts) and an
embed adapter that throws a retryable TEMPORARY error on attempt 1 and would
succeed on attempt 2, `dispatchEmbed` raises the original TEMPORARY error
after exactly one invocation — it never re-attempts, contradicting the claim
that embed shares chat's retry loop. -/
theorem embed_retry_counterexample :
    dispatchEmbed (cfgEmbed none) [adapterEmbedSeq embedFlaky] reqEmbedStd =
      (Except.error (Thrown.providerErr
        { message := "temporary blip", classification := Classification.TEMPORARY }), [1]) :=
  rfl

/-- C1 amended: `dispatchEmbed` performs no retry at all: the adapter's
embed method is invoked exactly once, any thrown error — retryable or not —
propagates immediately unchanged regardless of the configured budget, and a
successful response reports `attempts = 1`. -/
theorem embed_no_retry_amended (retryCfg : Option Int) (t : Thrown) (p : Jv) (tr : String) :
    dispatchEmbed (cfgEmbed retryCfg) [adapterEmbedSeq (fun _ => Except.error t)] reqEmbedStd =
      (Except.error t, [1])
    ∧ (dispatchEmbed (cfgEmbed retryCfg)
        [adapterEmbedSeq (fun _ => Except.ok { payload := p, traceId := tr })] reqEmbedStd).2 = [1]
    ∧ (dispatchEmbed (cfgEmbed retryCfg)
        [adapterEmbedSeq (fun _ => Except.ok { payload := p, traceId := tr })]
        reqEmbedStd).1.map (fun resp => resp.attempts) = Except.ok (some 1) :=
  ⟨rfl, rfl, rfl⟩

/-! ## C9: capability mismatch -/

/-- C9 counterexample: when the registered adapter does not advertise the
requested capability, `dispatchChat` fails before any adapter invocation and
without retry, but the thrown value is a plain local `Error` carrying **no**
classification — not a CONFIG-classified `ProviderError` as the claim
states. -/
theorem capability_mismatch_counterexample :
    dispatchChat (cfgRetryOpt none) [adapterNoChat] reqChatStd =
      (Except.error (Thrown.plainError "Adapter prov does not support chat capability"), [])
    ∧ carriesConfig (Thrown.plainError "Adapter prov does not support chat capability") = false :=
  ⟨rfl, rfl⟩

/-- C9 amended: on a capability mismatch — the adapter does not advertise
the capability, or the provider configuration does not declare it — the
dispatch fails immediately (no adapter capability-method call, no retry)
with a plain local `Error` naming the mismatch; being no `ProviderError`, it
carries no classification (the transport maps it to an internal error). -/
theorem capability_mismatch_amended (retryCfg : Option Int) :
    dispatchChat { providers := [("prov", pcChatOnly)], retryMaxAttempts := retryCfg }
      [adapterNoChat] reqChatStd =
      (Except.error (Thrown.plainError "Adapter prov does not support chat capability"), [])
    ∧ dispatchChat { providers := [("prov", pcEmbedOnly)], retryMaxAttempts := retryCfg }
      [adapterAllCaps] reqChatStd =
      (Except.error (Thrown.plainError "Provider prov does not declare capability: chat"), [])
    ∧ dispatchEmbed { providers := [("prov", pcChatOnly)], retryMaxAttempts := retryCfg }
      [adapterNoChat] reqEmbedStd =
      (Except.error (Thrown.plainError "Adapter prov does not support embed capability"), []) :=
  ⟨rfl, rfl, rfl⟩


/-! ## Helper lemmas: completions are tied to stop markers -/

/-- A choice without the exact stop marker emits no completion event. -/
theorem processChoice_no_completion (pn : String) (model : Option String)
    (traceId : Option String) (usageRaw : Option Jv) (c : RawChoice) (acc : String)
    (role : Option String) (h : (c.finish_reason == some "stop") = false) :
    ((processChoice pn model traceId usageRaw c acc role).1.all
      fun e => !(isCompletionEv e)) = true := by
  unfold processChoice
  cases hd : c.delta with
  | none => simp [h, hd]
  | some d =>
    by_cases he : (jsTruthyStrOpt d.role || jsTruthyStrOpt d.content) = true
    · simp [h, hd, he, isCompletionEv]
    · simp [h, hd, he]

/-- A choice list without stop markers emits no completion event. -/
theorem processChoices_no_completion (pn : String) (model : Option String)
    (traceId : Option String) (usageRaw : Option Jv) :
    ∀ (cs : List RawChoice) (acc : String) (role : Option String),
      (cs.all fun c => !(c.finish_reason == some "stop")) = true →
      ((processChoices pn model traceId usageRaw cs acc role).1.all
        fun e => !(isCompletionEv e)) = true := by
  intro cs
  induction cs with
  | nil => intro acc role _; rfl
  | cons c cs ih =>
    intro acc role hall
    rw [List.all_cons, Bool.and_eq_true] at hall
    unfold processChoices
    rw [List.all_append, Bool.and_eq_true]
    refine ⟨?_, ih _ _ hall.2⟩
    exact processChoice_no_completion pn model traceId usageRaw c acc role (by
      have := hall.1
      cases hfr : (c.finish_reason == some "stop") <;> simp [hfr] at this ⊢)

/-- If no chunk of the source contributes a stop-marked choice, the whole
stream emits no completion event, from any state. -/
theorem streamGo_no_completion (pn : String) (model : Option String) :
    ∀ (source : List String) (st : StreamState),
      (source.all fun s => (chunkChoices s).all fun c => !(c.finish_reason == some "stop")) = true →
      ((streamGo pn model source st).1.all fun e => !(isCompletionEv e)) = true := by
  intro source
  induction source with
  | nil => intro st _; rfl
  | cons s ss ih =>
    intro st hall
    rw [List.all_cons, Bool.and_eq_true] at hall
    obtain ⟨hs, hss⟩ := hall
    unfold streamGo
    cases hex : extractDataPayload s with
    | none => exact ih st hss
    | some d =>
      by_cases hde : (d == "") = true
      · simp only [hde, if_true]
        exact ih st hss
      · simp only [hde, if_false, Bool.false_eq_true]
        by_cases hdd : (d == "[DONE]") = true
        · simp [hdd]
        · simp only [hdd, if_false, Bool.false_eq_true]
          cases hp : parseJson d with
          | none => rfl
          | some v =>
            rw [List.all_append, Bool.and_eq_true]
            have hchoices : chunkChoices s = (toRawChunk v).choices := by
              unfold chunkChoices
              rw [hex]
              simp [hde, hdd, hp]
            rw [hchoices] at hs
            refine ⟨?_, ih _ hss⟩
            unfold processChunk
            exact processChoices_no_completion pn model _ _ _ _ _ hs

/-! ## C10: completion only on finish_reason = "stop" -/

/-- C10: the normalizer emits a completion event only upon a choice whose
`finish_reason` is exactly the string "stop": a source none of whose chunks
carries such a choice produces no completion event at all. -/
theorem stream_completion_only_on_stop (pn : String) (model : Option String)
    (source : List String)
    (h : (source.all fun s => (chunkChoices s).all fun c => !(c.finish_reason == some "stop")) = true) :
    ((mapChatCompletionsStream source pn model).1.all fun e => !(isCompletionEv e)) = true :=
  streamGo_no_completion pn model source {} h

/-- C10 witness: a stream with an accumulated delta ("Hel") whose terminal
marker is `finish_reason: "length"`, then the sentinel, emits its one delta
event and no completion. -/
theorem stream_completion_only_on_stop_witness :
    (mapChatCompletionsStream [c6a, c10len, c6done] "p" none).1.length = 1
    ∧ ((mapChatCompletionsStream [c6a, c10len, c6done] "p" none).1.all
        fun e => !(isCompletionEv e)) = true :=
  ⟨by decide, stream_completion_only_on_stop "p" none [c6a, c10len, c6done] (by decide)⟩

/-! ## C6: stream reconstruction -/

set_option maxRecDepth 10000 in
/-- C6: consuming the chunk payloads
`delta(role assistant, "Hel")`, `delta("lo")`, `finish_reason "stop"`
followed by the `[DONE]` sentinel emits exactly two delta events carrying
"Hel" and "lo", then exactly one completion event whose message is the
assistant message "Hello", and no event for the sentinel. -/
theorem stream_reconstruction :
    mapChatCompletionsStream [c6a, c6b, c6c, c6done] "openai" (some "gpt-4o-mini") =
      ([StreamEvent.delta { role := some "assistant", content := some "Hel" } none,
        StreamEvent.delta { content := some "lo" } none,
        StreamEvent.completion
          { messageRole := "assistant", messageContent := "Hello"
            usage := { inputTokens := 0, outputTokens := 0, totalTokens := some 0 }
            providerName := "openai", providerModel := some "gpt-4o-mini" } none],
        none) := by
  decide

/-! ## Helper lemmas: splitting a stream at a clean prefix -/

/-- One-step unfolding of `streamGo` on a cons cell. -/
theorem streamGo_cons (pn : String) (model : Option String) (s : String)
    (rest : List String) (st : StreamState) :
    streamGo pn model (s :: rest) st =
      match extractDataPayload s with
      | none => streamGo pn model rest st
      | some data =>
        if data == "" then streamGo pn model rest st
        else if data == "[DONE]" then ([], none)
        else
          match parseJson data with
          | none => ([], some parseFailureError)
          | some v =>
            ((processChunk pn model v st).1 ++
              (streamGo pn model rest (processChunk pn model v st).2).1,
              (streamGo pn model rest (processChunk pn model v st).2).2) := rfl

/-- One-step unfolding of `stateAfter` on a cons cell. -/
theorem stateAfter_cons (pn : String) (model : Option String) (s : String)
    (rest : List String) (st : StreamState) :
    stateAfter pn model (s :: rest) st =
      match extractDataPayload s with
      | none => stateAfter pn model rest st
      | some d =>
        if d == "" then stateAfter pn model rest st
        else if d == "[DONE]" then st
        else
          match parseJson d with
          | some v => stateAfter pn model rest (processChunk pn model v st).2
          | none => st := rfl

/-- Processing distributes over appending after a prefix of clean chunks
(none of which ends or fails the stream), with the state threaded through
`stateAfter`. -/
theorem streamGo_append_clean (pn : String) (model : Option String) :
    ∀ (pre ys : List String) (st : StreamState), (pre.all fun s => cleanChunk s) = true →
      streamGo pn model (pre ++ ys) st =
        ((streamGo pn model pre st).1 ++ (streamGo pn model ys (stateAfter pn model pre st)).1,
          (streamGo pn model ys (stateAfter pn model pre st)).2) := by
  intro pre
  induction pre with
  | nil => intro ys st _; simp [streamGo, stateAfter]
  | cons s ss ih =>
    intro ys st hall
    rw [List.all_cons, Bool.and_eq_true] at hall
    obtain ⟨hs, hss⟩ := hall
    unfold cleanChunk at hs
    rw [List.cons_append]
    cases hex : extractDataPayload s with
    | none =>
      simp only [streamGo_cons, stateAfter_cons, hex]
      exact ih ys st hss
    | some d =>
      rw [hex] at hs
      simp only [streamGo_cons, stateAfter_cons, hex]
      by_cases hde : (d == "") = true
      · simp only [hde, if_true]
        exact ih ys st hss
      · rw [Bool.or_eq_true] at hs
        rcases hs with h1 | h2
        · exact absurd h1 hde
        · rw [Bool.and_eq_true] at h2
          obtain ⟨hdd, hp⟩ := h2
          have hdd' : ¬((d == "[DONE]") = true) := by
            intro h
            rw [h] at hdd
            exact absurd hdd (by decide)
          cases hpj : parseJson d with
          | none =>
            rw [hpj] at hp
            exact absurd hp (by decide)
          | some v =>
            simp only [if_neg hde, if_neg hdd', hpj]
            rw [ih ys (processChunk pn model v st).2 hss]
            simp [List.append_assoc]

/-- A stop-marker chunk followed by the sentinel emits exactly the one
completion event built from the current state, and ends the stream. -/
theorem streamGo_stop_done (pn : String) (model : Option String) (rest : List String)
    (st : StreamState) :
    streamGo pn model (stopChunkStr :: doneChunkStr :: rest) st =
      ([StreamEvent.completion
          { messageRole := st.role.getD "assistant"
            messageContent := st.accumulatedContent
            usage := normalizeChatUsage st.usageRaw
            providerName := pn, providerModel := model } st.traceId], none) := by
  rfl

/-! ## C7: the completion event and stream ordering -/

set_option maxRecDepth 10000 in
/-- C7 counterexample: the code emits a completion for **each** stop-marked
choice and keeps consuming afterwards, so a stop chunk followed by a delta
chunk yields a delta event *after* the completion event — the completion is
not last, refuting the claim for arbitrary chunk sequences. -/
theorem stream_events_after_completion_counterexample :
    mapChatCompletionsStream [stopChunkStr, deltaXChunkStr] "p" none =
      ([StreamEvent.completion
          { messageRole := "assistant", messageContent := ""
            usage := { inputTokens := 0, outputTokens := 0, totalTokens := some 0 }
            providerName := "p", providerModel := none } none,
        StreamEvent.delta { content := some "x" } none], none)
    ∧ ((mapChatCompletionsStream [stopChunkStr, deltaXChunkStr] "p" none).1.getLast?.map
        isCompletionEv) = some false := by
  constructor
  · decide
  · decide

/-- C7 amended: for streams of the shape upstream providers actually
produce — data chunks that parse cleanly and carry no stop marker, then the
stop-marked chunk, then the sentinel — the normalizer emits exactly one
completion event, and it is the last event; the unconditional claim fails
because a stop-marked choice does not end consumption (see the
counterexample). -/
theorem stream_completion_last_amended (pn : String) (model : Option String)
    (pre rest : List String)
    (hclean : (pre.all fun s => cleanChunk s) = true)
    (hnostop : (pre.all fun s =>
      (chunkChoices s).all fun c => !(c.finish_reason == some "stop")) = true) :
    ∃ ds p tid,
      (mapChatCompletionsStream (pre ++ stopChunkStr :: doneChunkStr :: rest) pn model).1 =
        ds ++ [StreamEvent.completion p tid]
      ∧ (ds.all fun e => !(isCompletionEv e)) = true := by
  unfold mapChatCompletionsStream
  rw [streamGo_append_clean pn model pre _ {} hclean, streamGo_stop_done]
  exact ⟨(streamGo pn model pre {}).1, _, _, rfl,
    streamGo_no_completion pn model pre {} hnostop⟩

set_option maxRecDepth 10000 in
/-- C7 witness: one clean delta chunk, then the stop marker and the
sentinel. -/
theorem stream_completion_last_witness :
    ∃ ds p tid,
      (mapChatCompletionsStream ([c6a] ++ stopChunkStr :: doneChunkStr :: []) "p" none).1 =
        ds ++ [StreamEvent.completion p tid]
      ∧ (ds.all fun e => !(isCompletionEv e)) = true :=
  stream_completion_last_amended "p" none [c6a] [] (by decide) (by decide)

/-! ## C8: usage normalization -/

/-- C8 counterexample: an upstream total of −1 (with prompt 1, completion 2)
is **clamped to 0**, not preserved verbatim, refuting the claim's
"preserved verbatim" for totals that are not non-negative integers. -/
theorem usage_total_not_verbatim :
    normalizeChatUsage (some (usageObjFull 1 2 (-1))) =
      { inputTokens := 1, outputTokens := 2, totalTokens := some 0 }
    ∧ (some (0:Int) ≠ some (-1:Int)) := by
  constructor
  · decide
  · decide

/-- C8 amended: negative or non-numeric input/output counts normalize to 0;
an upstream-supplied total takes precedence over the derived sum even when
it disagrees with input + output, but — like the other counts — it is
clamped to a minimum of 0 (and rounded, the identity on integers) rather
than preserved verbatim; with no upstream total, `totalTokens` is the clamp
of the **raw** coerced input + output (each defaulting to 0 when absent or
non-numeric), so chat usage always carries a `totalTokens`. -/
theorem usage_clamping_amended (i o t : Int) :
    normalizeChatUsage (some (usageObjFull i o t)) =
      { inputTokens := clampNonNegative i, outputTokens := clampNonNegative o
        totalTokens := some (clampNonNegative t) }
    ∧ normalizeChatUsage (some (usageObjPartial i o)) =
      { inputTokens := clampNonNegative i, outputTokens := clampNonNegative o
        totalTokens := some (clampNonNegative (i + o)) }
    ∧ normalizeChatUsage (some (usageObjPartial (-7) 3)) =
      { inputTokens := 0, outputTokens := 3, totalTokens := some 0 }
    ∧ normalizeChatUsage (some (Jv.obj
        [("prompt_tokens", Jv.str "garbage"), ("completion_tokens", Jv.bool true)])) =
      { inputTokens := 0, outputTokens := 0, totalTokens := some 0 }
    ∧ normalizeChatUsage none =
      { inputTokens := 0, outputTokens := 0, totalTokens := some 0 } :=
  ⟨rfl, rfl, by decide, by decide, rfl⟩
